import Mathlib

/-!
Shallow embedding of the Nexus runtime kernel core
(Service / ServiceContainer / ServiceLocator / Layer / LayerStack /
Event / EventHandler / Application) translated from the TypeScript source.

Modelling conventions:
* service identifiers (class constructors in TS) are `Nat`;
* error values thrown by user lifecycle hooks are `Nat` codes;
* a user hook's behaviour is recorded in the instance as data
  (`initResult`/`shutdownResult`: `none` = the async hook resolves,
  `some e` = it rejects with error `e`; `detachThrows` likewise for a
  layer's `OnDetach`; `consumesOnEvent` says whether the layer's
  `OnEvent` hook consumes the envelope);
* observable hook invocations are returned as traces (lists of ids);
* a rejected promise / thrown exception is an `Except.error`.
-/

namespace Nexus

/-- Errors raised by the kernel itself (developer-misuse errors);
each constructor stands for the corresponding thrown `Error` message. -/
inductive Err where
  /-- "ServiceContainer::Get - Service not found: ..." naming the identifier. -/
  | notFound (identifier : Nat)
  /-- "ServiceLocator::Get - ServiceLocator has not been initialized!". -/
  | locatorUninitialized
  /-- "ServiceLocator::Get - ... before it was initialized." naming the identifier. -/
  | notYetInitialized (identifier : Nat)
  deriving DecidableEq, Repr

/-- A `Service` instance: the behaviour of its two user hooks plus the
`Initialized` flag (which starts `false` on construction). -/
structure Service where
  /-- `none`: `OnInitialize` resolves; `some e`: it rejects with `e`. -/
  initResult : Option Nat
  /-- `none`: `OnShutdown` resolves; `some e`: it rejects with `e`. -/
  shutdownResult : Option Nat
  /-- The `Initialized` flag maintained by the base-class wrapper. -/
  Initialized : Bool
  deriving DecidableEq, Repr

/-- Constructing a `Service`: the `Initialized` flag starts `false`. -/
def mkService (initResult shutdownResult : Option Nat) : Service :=
  { initResult := initResult, shutdownResult := shutdownResult, Initialized := false }

/-- `Service.Initialize`: `await this.OnInitialize(); this.Initialized = true`.
If the hook rejects, the flag assignment is never reached. -/
def Service.Initialize (s : Service) : Except Nat Service :=
  match s.initResult with
  | some e => .error e
  | none => .ok { s with Initialized := true }

/-- `Service.Shutdown`: `await this.OnShutdown(); this.Initialized = false`.
If the hook rejects, the flag assignment is never reached. -/
def Service.Shutdown (s : Service) : Except Nat Service :=
  match s.shutdownResult with
  | some e => .error e
  | none => .ok { s with Initialized := false }

/-- `Service.IsInitialized`: returns the `Initialized` flag. -/
def Service.IsInitialized (s : Service) : Bool :=
  s.Initialized

/-- The `ServiceContainer`: an insertion-ordered map from identifier to
instance (a JS `Map` iterates in insertion order). -/
structure ServiceContainer where
  services : List (Nat × Service)
  deriving DecidableEq, Repr

/-- `ServiceContainer.Register`: if the identifier is already present,
log a warning and return (the original binding is kept); otherwise
append the new registration. -/
def ServiceContainer.Register (c : ServiceContainer) (identifier : Nat)
    (inst : Service) : ServiceContainer :=
  if (c.services.lookup identifier).isSome then c
  else ⟨c.services ++ [(identifier, inst)]⟩

/-- `ServiceContainer.Get`: the bound instance, or a "Service not found"
error naming the identifier. -/
def ServiceContainer.Get (c : ServiceContainer) (identifier : Nat) :
    Except Err Service :=
  match c.services.lookup identifier with
  | none => .error (.notFound identifier)
  | some s => .ok s

/-- The loop body of `ServiceContainer.Initialize`: walk the registrations
in insertion order, awaiting each instance's `Initialize`; on the first
rejection stop (rethrowing that error), leaving that instance and all
later ones untouched. Returns the trace of identifiers whose init hook
was invoked, the updated registrations, and the propagated error. -/
def initList : List (Nat × Service) → List Nat × List (Nat × Service) × Option Nat
  | [] => ([], [], none)
  | (identifier, s) :: rest =>
    match s.Initialize with
    | .error e => ([identifier], (identifier, s) :: rest, some e)
    | .ok s' =>
      let (tr, rest', err) := initList rest
      (identifier :: tr, (identifier, s') :: rest', err)

/-- `ServiceContainer.Initialize` (returns the invocation trace, the
container afterwards, and `some e` when the call rejects with `e`). -/
def ServiceContainer.Initialize (c : ServiceContainer) :
    List Nat × ServiceContainer × Option Nat :=
  let (tr, l, err) := initList c.services
  (tr, ⟨l⟩, err)

/-- The loop body of `ServiceContainer.Shutdown`: await each instance's
`Shutdown` in insertion order with no try/catch, so the first rejection
propagates to the caller. -/
def shutdownList : List (Nat × Service) → Except Nat (List (Nat × Service))
  | [] => .ok []
  | (identifier, s) :: rest =>
    match s.Shutdown with
    | .error e => .error e
    | .ok s' => (shutdownList rest).map (fun l => (identifier, s') :: l)

/-- `ServiceContainer.Shutdown`. -/
def ServiceContainer.Shutdown (c : ServiceContainer) :
    Except Nat ServiceContainer :=
  (shutdownList c.services).map ServiceContainer.mk

/-- `ServiceLocator.Get`: the static locator holds `Option ServiceContainer`
(`none` until `Initialize` binds one). Fails if unbound; otherwise
delegates to the container's `Get` and additionally fails when the
instance's `IsInitialized()` is `false`. -/
def ServiceLocator.Get (container : Option ServiceContainer) (identifier : Nat) :
    Except Err Service :=
  match container with
  | none => .error .locatorUninitialized
  | some c =>
    match c.Get identifier with
    | .error e => .error e
    | .ok s =>
      if s.IsInitialized then .ok s
      else .error (.notYetInitialized identifier)

/-- A consumable, typed event envelope (`Type` discriminator as `Nat`). -/
structure Event where
  type : Nat
  consumed : Bool
  deriving DecidableEq, Repr

/-- `Event.Consumed()`. -/
def Event.Consumed (e : Event) : Bool :=
  e.consumed

/-- `Event.Consume()`: one-way flag set. -/
def Event.Consume (e : Event) : Event :=
  { e with consumed := true }

/-- `EventHandler.Handle(type, handler)`: if the event is already consumed
or the types do not match, do nothing; otherwise call the handler and
consume the event exactly when it returns `true`. Returns the event
afterwards and whether the handler was invoked. -/
def EventHandler.Handle (e : Event) (type : Nat) (handler : Event → Bool) :
    Event × Bool :=
  if e.Consumed || e.type ≠ type then (e, false)
  else if handler e then (e.Consume, true) else (e, true)

/-- A `Layer` instance: an identity (reference), the behaviour of its
`OnDetach` hook, and whether its `OnEvent` hook consumes the envelope. -/
structure Layer where
  id : Nat
  /-- `none`: `OnDetach` returns; `some e`: it throws `e`. -/
  detachThrows : Option Nat
  /-- Whether this layer's `OnEvent` hook calls `event.Consume()`. -/
  consumesOnEvent : Bool
  deriving DecidableEq, Repr

/-- The `LayerStack`: one ordered array plus the overlay insert index
(the "cut": regular layers live strictly before it). -/
structure LayerStack where
  layers : List Layer
  layerInsertIndex : Nat
  deriving DecidableEq, Repr

/-- A freshly constructed `LayerStack`. -/
def LayerStack.empty : LayerStack :=
  ⟨[], 0⟩

/-- `Array.prototype.splice(index, 0, x)`: insert `x` before position
`index` (appending when `index` exceeds the length). -/
def spliceInsert (l : List Layer) (index : Nat) (x : Layer) : List Layer :=
  l.take index ++ x :: l.drop index

/-- `LayerStack.PushLayer`: insert at the cut, advance the cut (the
attach hook then fires; it has no effect on the stack itself). -/
def LayerStack.PushLayer (st : LayerStack) (layer : Layer) : LayerStack :=
  ⟨spliceInsert st.layers st.layerInsertIndex layer, st.layerInsertIndex + 1⟩

/-- `LayerStack.PushOverlay`: append past the cut. -/
def LayerStack.PushOverlay (st : LayerStack) (overlay : Layer) : LayerStack :=
  ⟨st.layers ++ [overlay], st.layerInsertIndex⟩

/-- `LayerStack.PopLayer`: locate by identity; only when found strictly
before the cut, invoke detach, splice out and retract the cut (when the
detach throws, the splice is never reached). Returns the stack
afterwards, whether detach was invoked, and a propagated exception. -/
def LayerStack.PopLayer (st : LayerStack) (layer : Layer) :
    LayerStack × Bool × Option Nat :=
  match st.layers.findIdx? (fun x => x.id == layer.id) with
  | none => (st, false, none)
  | some index =>
    if index < st.layerInsertIndex then
      match (st.layers.getD index layer).detachThrows with
      | some e => (st, true, some e)
      | none => (⟨st.layers.eraseIdx index, st.layerInsertIndex - 1⟩, true, none)
    else (st, false, none)

/-- `LayerStack.PopOverlay`: symmetric, only at/after the cut; the cut
is not changed on removal. -/
def LayerStack.PopOverlay (st : LayerStack) (overlay : Layer) :
    LayerStack × Bool × Option Nat :=
  match st.layers.findIdx? (fun x => x.id == overlay.id) with
  | none => (st, false, none)
  | some index =>
    if st.layerInsertIndex ≤ index then
      match (st.layers.getD index overlay).detachThrows with
      | some e => (st, true, some e)
      | none => (⟨st.layers.eraseIdx index, st.layerInsertIndex⟩, true, none)
    else (st, false, none)

/-- The detach pass of `LayerStack.Shutdown`: call `OnDetach` on each
layer in sequence order; a throw aborts the pass. Returns the trace of
detached layer ids and the first thrown error, if any. -/
def detachAll : List Layer → List Nat × Option Nat
  | [] => ([], none)
  | l :: rest =>
    match l.detachThrows with
    | some e => ([l.id], some e)
    | none =>
      let (tr, err) := detachAll rest
      (l.id :: tr, err)

/-- `LayerStack.Shutdown`: run the detach pass inside a try/catch; only
when no detach throws are the array cleared and the cut reset, and the
returned success flag is `true` exactly then. Returns the detach trace,
the stack afterwards, and the success flag. -/
def LayerStack.Shutdown (st : LayerStack) : List Nat × LayerStack × Bool :=
  match detachAll st.layers with
  | (tr, none) => (tr, ⟨[], 0⟩, true)
  | (tr, some _) => (tr, st, false)

/-- `LayerStack.OnUpdate(ts)`: invoke each layer's update hook in
sequence order (regular layers first, then overlays). Returns the
trace of visited layer ids. -/
def LayerStack.OnUpdate (st : LayerStack) (ts : Nat) : List Nat :=
  let _ := ts
  st.layers.map (fun l => l.id)

/-- The loop body of `LayerStack.OnEvent`, already over the reversed
sequence: check `Consumed` before each call and stop once it is true;
a visited layer consumes the envelope when its hook does. -/
def onEventLoop : List Layer → Event → List Nat × Event
  | [], e => ([], e)
  | l :: rest, e =>
    if e.Consumed then ([], e)
    else
      let e' := if l.consumesOnEvent then e.Consume else e
      let (tr, ef) := onEventLoop rest e'
      (l.id :: tr, ef)

/-- `LayerStack.OnEvent(event)`: iterate from the top of the array down
to the bottom (overlays first, then regular layers). Returns the trace
of visited layer ids and the envelope afterwards. -/
def LayerStack.OnEvent (st : LayerStack) (e : Event) : List Nat × Event :=
  onEventLoop st.layers.reverse e

/-- `Application.Shutdown`: `await this.serviceContainer.Shutdown()` with
no try/catch (a service shutdown rejection propagates out and
`process.exit` is never reached), then `this.layerStack.Shutdown()`
(which swallows detach failures and returns a flag), then
`process.exit(success ? 0 : 1)`. `.ok code` = the process exited with
`code`; `.error e` = the shutdown path itself rejected with `e`. -/
def Application.Shutdown (c : ServiceContainer) (st : LayerStack) :
    Except Nat Nat :=
  match c.Shutdown with
  | .error e => .error e
  | .ok _ => .ok (if (st.Shutdown).2.2 then 0 else 1)

/-- Orchestrator state (`Application`): the running flag, the last tick
timestamp, and the owned container and stack. -/
structure App where
  running : Bool
  lastTickTime : Nat
  serviceContainer : ServiceContainer
  layerStack : LayerStack
  deriving DecidableEq, Repr

/-- `Application.Close()`: sets `running = false` and nothing else. -/
def App.Close (a : App) : App :=
  { a with running := false }

/-- The observable outcome of one `Tick()` call. -/
inductive TickOutcome where
  /-- `running` was `false`: `Shutdown()` is triggered, no update pass
  runs, and no further tick is scheduled. -/
  | shutdownTriggered
  /-- `running` was `true`: the timestamp is updated, one update pass
  runs over the stack (with its visit trace), and the next tick is
  scheduled via `setImmediate`. -/
  | ticked (a : App) (updateTrace : List Nat)
  deriving DecidableEq, Repr

/-- `Application.Tick()` at clock sample `now`. -/
def App.Tick (a : App) (now : Nat) : TickOutcome :=
  if !a.running then .shutdownTriggered
  else
    .ticked { a with lastTickTime := now }
      (a.layerStack.OnUpdate (now - a.lastTickTime))

/-- The cooperative loop: run scheduled ticks at the given clock samples,
collecting each tick's update-pass trace; the loop ends when a tick
observes `running = false` (shutdown) or the samples run out. -/
def runLoop (a : App) : List Nat → List (List Nat)
  | [] => []
  | now :: rest =>
    match a.Tick now with
    | .shutdownTriggered => []
    | .ticked a' tr => tr :: runLoop a' rest

/-- Registering a list of services in order via `ServiceContainer.Register`
starting from an empty container. -/
def registerAll (regs : List (Nat × Service)) : ServiceContainer :=
  regs.foldl (fun c p => c.Register p.1 p.2) ⟨[]⟩

lemma lookup_append_none (l₁ l₂ : List (Nat × Service)) (a : Nat)
    (h₁ : l₁.lookup a = none) (h₂ : l₂.lookup a = none) :
    (l₁ ++ l₂).lookup a = none := by
  induction l₁ with
  | nil => simpa using h₂
  | cons p t ih =>
    obtain ⟨k, b⟩ := p
    simp only [List.lookup, List.cons_append] at h₁ ⊢
    cases hak : (a == k) with
    | true => simp [hak] at h₁
    | false => exact ih (by simpa [hak] using h₁)

lemma lookup_not_mem_none (l : List (Nat × Service)) (a : Nat)
    (h : a ∉ l.map Prod.fst) : l.lookup a = none := by
  induction l with
  | nil => rfl
  | cons p t ih =>
    obtain ⟨k, b⟩ := p
    simp only [List.map_cons, List.mem_cons] at h
    push_neg at h
    have hne : (a == k) = false := beq_eq_false_iff_ne.mpr h.1
    simp [List.lookup, hne, ih h.2]

lemma registerAll_go (regs : List (Nat × Service)) :
    ∀ acc : List (Nat × Service),
    (∀ p ∈ regs, acc.lookup p.1 = none) → (regs.map Prod.fst).Nodup →
    regs.foldl (fun c p => c.Register p.1 p.2) (⟨acc⟩ : ServiceContainer) =
      (⟨acc ++ regs⟩ : ServiceContainer) := by
  induction regs with
  | nil => intro acc _ _; simp
  | cons p rest ih =>
    intro acc hfresh hnd
    obtain ⟨k, b⟩ := p
    have hk : acc.lookup k = none := hfresh (k, b) (by simp)
    have hstep : ServiceContainer.Register ⟨acc⟩ k b = ⟨acc ++ [(k, b)]⟩ := by
      simp [ServiceContainer.Register, hk]
    simp only [List.map_cons, List.nodup_cons] at hnd
    have hfresh' : ∀ q ∈ rest, (acc ++ [(k, b)]).lookup q.1 = none := by
      intro q hq
      refine lookup_append_none _ _ _ (hfresh q (by simp [hq])) ?_
      have hne : (q.1 == k) = false := by
        refine beq_eq_false_iff_ne.mpr ?_
        intro hEq
        exact hnd.1 (hEq ▸ List.mem_map_of_mem Prod.fst hq)
      simp [List.lookup, hne]
    calc (((k, b) :: rest).foldl (fun c p => c.Register p.1 p.2)
            (⟨acc⟩ : ServiceContainer))
        = rest.foldl (fun c p => c.Register p.1 p.2)
            (⟨acc ++ [(k, b)]⟩ : ServiceContainer) := by
          rw [List.foldl_cons, hstep]
      _ = (⟨acc ++ (k, b) :: rest⟩ : ServiceContainer) := by
          rw [ih _ hfresh' hnd.2]; simp

lemma registerAll_services (regs : List (Nat × Service))
    (hnd : (regs.map Prod.fst).Nodup) : (registerAll regs).services = regs := by
  have := registerAll_go regs [] (by intro p _; rfl) hnd
  simp [registerAll, this]

lemma initList_all_ok (l : List (Nat × Service))
    (h : ∀ p ∈ l, p.2.initResult = none) :
    initList l = (l.map Prod.fst,
      l.map (fun p => (p.1, { p.2 with Initialized := true })), none) := by
  induction l with
  | nil => rfl
  | cons p rest ih =>
    obtain ⟨k, s⟩ := p
    have hs : s.initResult = none := h (k, s) (by simp)
    have hrest := ih (fun q hq => h q (by simp [hq]))
    simp [initList, Service.Initialize, hs, hrest]

lemma initList_first_err (pre post : List (Nat × Service)) (idk : Nat)
    (sk : Service) (e : Nat)
    (hpre : ∀ p ∈ pre, p.2.initResult = none) (hk : sk.initResult = some e) :
    initList (pre ++ (idk, sk) :: post) =
      (pre.map Prod.fst ++ [idk],
       pre.map (fun p => (p.1, { p.2 with Initialized := true }))
         ++ (idk, sk) :: post,
       some e) := by
  induction pre with
  | nil => simp [initList, Service.Initialize, hk]
  | cons p rest ih =>
    obtain ⟨k, s⟩ := p
    have hs : s.initResult = none := hpre (k, s) (by simp)
    have hrest := ih (fun q hq => hpre q (by simp [hq]))
    simp [initList, Service.Initialize, hs, hrest]

lemma shutdownList_all_ok (l : List (Nat × Service))
    (h : ∀ p ∈ l, p.2.shutdownResult = none) :
    shutdownList l =
      .ok (l.map (fun p => (p.1, { p.2 with Initialized := false }))) := by
  induction l with
  | nil => rfl
  | cons p rest ih =>
    obtain ⟨k, s⟩ := p
    have hs : s.shutdownResult = none := h (k, s) (by simp)
    have hrest := ih (fun q hq => h q (by simp [hq]))
    simp [shutdownList, Service.Shutdown, Except.map, hs, hrest]

lemma shutdownList_first_err (pre post : List (Nat × Service)) (idk : Nat)
    (sk : Service) (e : Nat)
    (hpre : ∀ p ∈ pre, p.2.shutdownResult = none)
    (hk : sk.shutdownResult = some e) :
    shutdownList (pre ++ (idk, sk) :: post) = .error e := by
  induction pre with
  | nil => simp [shutdownList, Service.Shutdown, hk]
  | cons p rest ih =>
    obtain ⟨k, s⟩ := p
    have hs : s.shutdownResult = none := hpre (k, s) (by simp)
    have hrest := ih (fun q hq => hpre q (by simp [hq]))
    simp [shutdownList, Service.Shutdown, Except.map, hs, hrest]

lemma detachAll_all_ok (l : List Layer)
    (h : ∀ x ∈ l, x.detachThrows = none) :
    detachAll l = (l.map (fun x => x.id), none) := by
  induction l with
  | nil => rfl
  | cons x rest ih =>
    have hx : x.detachThrows = none := h x (by simp)
    have hrest := ih (fun y hy => h y (by simp [hy]))
    simp [detachAll, hx, hrest]

lemma detachAll_first_err (pre post : List Layer) (x : Layer) (e : Nat)
    (hpre : ∀ y ∈ pre, y.detachThrows = none) (hx : x.detachThrows = some e) :
    detachAll (pre ++ x :: post) = (pre.map (fun y => y.id) ++ [x.id], some e) := by
  induction pre with
  | nil => simp [detachAll, hx]
  | cons y rest ih =>
    have hy : y.detachThrows = none := hpre y (by simp)
    have hrest := ih (fun z hz => hpre z (by simp [hz]))
    simp [detachAll, hy, hrest]

/-- C9: a `Service`'s `IsInitialized()` is `false` on construction; if the
`OnInitialize` hook rejects, `Initialize` rejects with that error and the
flag is never set; a service returned by a completed `Initialize` reads
initialized, and one returned by a completed `Shutdown` reads
uninitialized again. -/
theorem service_flag_lifecycle (sv : Service) :
    (∀ i s, (mkService i s).IsInitialized = false) ∧
    (∀ e, sv.initResult = some e → sv.Initialize = Except.error e) ∧
    (∀ sv', sv.Initialize = Except.ok sv' → sv'.IsInitialized = true) ∧
    (∀ sv', sv.Shutdown = Except.ok sv' → sv'.IsInitialized = false) := by
  refine ⟨fun i s => rfl, fun e he => by simp [Service.Initialize, he], ?_, ?_⟩
  · intro sv' h
    cases hi : sv.initResult with
    | some e => simp [Service.Initialize, hi] at h
    | none =>
      simp only [Service.Initialize, hi] at h
      cases h
      rfl
  · intro sv' h
    cases hs : sv.shutdownResult with
    | some e => simp [Service.Shutdown, hs] at h
    | none =>
      simp only [Service.Shutdown, hs] at h
      cases h
      rfl

/-- Witness for C9 at a concrete service. -/
theorem service_flag_lifecycle_witness :
    (mkService (some 3) none).Initialize = Except.error 3 ∧
    ∀ sv', (mkService none none).Initialize = Except.ok sv' →
      sv'.IsInitialized = true :=
  ⟨(service_flag_lifecycle (mkService (some 3) none)).2.1 3 rfl,
   (service_flag_lifecycle (mkService none none)).2.2.1⟩

/-- C10: `EventHandler.Handle(type, handler)` invokes the handler exactly
when the event is unconsumed and its `Type` matches; it consumes the
event iff the invoked handler returns `true`; otherwise the event is
unchanged and the handler is not called. -/
theorem eventHandler_handle_spec (e : Event) (t : Nat) (f : Event → Bool) :
    ((EventHandler.Handle e t f).2 = (!e.consumed && e.type == t)) ∧
    (e.consumed = false → e.type = t →
      EventHandler.Handle e t f =
        (if f e then ({ e with consumed := true }, true) else (e, true))) ∧
    ((e.consumed = true ∨ e.type ≠ t) →
      EventHandler.Handle e t f = (e, false)) := by
  refine ⟨?_, ?_, ?_⟩
  · by_cases hc : e.consumed
    · simp [EventHandler.Handle, Event.Consumed, hc]
    · by_cases ht : e.type = t
      · by_cases hf : f e <;>
          simp [EventHandler.Handle, Event.Consumed, Event.Consume, hc, ht, hf]
      · simp [EventHandler.Handle, Event.Consumed, hc, ht]
  · intro hc ht
    simp [EventHandler.Handle, Event.Consumed, Event.Consume, hc, ht]
  · intro h
    rcases h with hc | ht
    · simp [EventHandler.Handle, Event.Consumed, hc]
    · by_cases hc : e.consumed <;>
        simp [EventHandler.Handle, Event.Consumed, hc, ht]

/-- Witness for C10 at a concrete event, type and handler. -/
theorem eventHandler_handle_spec_witness :
    EventHandler.Handle ⟨5, false⟩ 5 (fun _ => true) = (⟨5, true⟩, true) ∧
    EventHandler.Handle ⟨5, false⟩ 6 (fun _ => true) = (⟨5, false⟩, false) :=
  ⟨by rw [(eventHandler_handle_spec ⟨5, false⟩ 5 (fun _ => true)).2.1 rfl rfl]; rfl,
   (eventHandler_handle_spec ⟨5, false⟩ 6 (fun _ => true)).2.2 (Or.inr (by decide))⟩

/-- C6: registering an already-bound identity leaves the registry
unchanged — the original instance stays bound, the new instance is
discarded, and `Get` still returns the original instance. -/
theorem register_never_overwrites (c : ServiceContainer) (identifier : Nat)
    (s₀ inst : Service) (h : c.services.lookup identifier = some s₀) :
    c.Register identifier inst = c ∧
    (c.Register identifier inst).Get identifier = Except.ok s₀ := by
  have hreg : c.Register identifier inst = c := by
    simp [ServiceContainer.Register, h]
  exact ⟨hreg, by rw [hreg]; simp [ServiceContainer.Get, h]⟩

/-- Witness for C6 at a concrete registry. -/
theorem register_never_overwrites_witness :
    ((⟨[(0, mkService none none)]⟩ : ServiceContainer).Register 0
        (mkService (some 1) none)) = ⟨[(0, mkService none none)]⟩ ∧
    ((⟨[(0, mkService none none)]⟩ : ServiceContainer).Register 0
        (mkService (some 1) none)).Get 0 = Except.ok (mkService none none) :=
  register_never_overwrites ⟨[(0, mkService none none)]⟩ 0
    (mkService none none) (mkService (some 1) none) rfl

/-- C5: `ServiceLocator.Get` fails with the locator-uninitialized error
when no container is bound; with a bound container it delegates to the
container's `Get` (not-found error naming the identifier when
unregistered), fails with the not-yet-initialized error when the bound
instance's `IsInitialized()` is `false`, and otherwise returns exactly
the registered instance. -/
theorem serviceLocator_get_spec (identifier : Nat) (c : ServiceContainer) :
    (ServiceLocator.Get none identifier =
      Except.error Err.locatorUninitialized) ∧
    (c.services.lookup identifier = none →
      ServiceLocator.Get (some c) identifier =
        Except.error (Err.notFound identifier)) ∧
    (∀ s, c.services.lookup identifier = some s → s.IsInitialized = false →
      ServiceLocator.Get (some c) identifier =
        Except.error (Err.notYetInitialized identifier)) ∧
    (∀ s, c.services.lookup identifier = some s → s.IsInitialized = true →
      ServiceLocator.Get (some c) identifier = Except.ok s) := by
  refine ⟨rfl, ?_, ?_, ?_⟩
  · intro h
    simp [ServiceLocator.Get, ServiceContainer.Get, h]
  · intro s hs hinit
    simp [ServiceLocator.Get, ServiceContainer.Get, hs, hinit]
  · intro s hs hinit
    simp [ServiceLocator.Get, ServiceContainer.Get, hs, hinit]

/-- Witness for C5 at a concrete container holding one uninitialized and
one initialized service. -/
theorem serviceLocator_get_spec_witness :
    ServiceLocator.Get none 0 = Except.error Err.locatorUninitialized ∧
    ServiceLocator.Get (some ⟨[(0, mkService none none)]⟩) 1 =
      Except.error (Err.notFound 1) ∧
    ServiceLocator.Get (some ⟨[(0, mkService none none)]⟩) 0 =
      Except.error (Err.notYetInitialized 0) ∧
    ServiceLocator.Get (some ⟨[(0, ⟨none, none, true⟩)]⟩) 0 =
      Except.ok ⟨none, none, true⟩ :=
  ⟨(serviceLocator_get_spec 0 ⟨[]⟩).1,
   (serviceLocator_get_spec 1 ⟨[(0, mkService none none)]⟩).2.1 rfl,
   (serviceLocator_get_spec 0 ⟨[(0, mkService none none)]⟩).2.2.1
     (mkService none none) rfl rfl,
   (serviceLocator_get_spec 0 ⟨[(0, ⟨none, none, true⟩)]⟩).2.2.2
     ⟨none, none, true⟩ rfl rfl⟩

/-- C7: `PopLayer` on an absent layer or on one at/after the cut (an
overlay) is a no-op — stack unchanged, detach not invoked; symmetrically
`PopOverlay` on an absent layer or on one strictly before the cut (a
regular layer) is a no-op. -/
theorem pop_wrong_side_noop (st : LayerStack) (l : Layer) :
    ((st.layers.findIdx? (fun x => x.id == l.id) = none ∨
      ∃ i, st.layers.findIdx? (fun x => x.id == l.id) = some i ∧
        st.layerInsertIndex ≤ i) →
      st.PopLayer l = (st, false, none)) ∧
    ((st.layers.findIdx? (fun x => x.id == l.id) = none ∨
      ∃ i, st.layers.findIdx? (fun x => x.id == l.id) = some i ∧
        i < st.layerInsertIndex) →
      st.PopOverlay l = (st, false, none)) := by
  constructor
  · rintro (h | ⟨i, hi, hcut⟩)
    · simp [LayerStack.PopLayer, h]
    · simp [LayerStack.PopLayer, hi, Nat.not_lt.mpr hcut]
  · rintro (h | ⟨i, hi, hcut⟩)
    · simp [LayerStack.PopOverlay, h]
    · simp [LayerStack.PopOverlay, hi, Nat.not_le.mpr hcut]

/-- Witness for C7: popping a regular layer with `PopOverlay`, popping an
overlay with `PopLayer`, and popping an absent layer are all no-ops. -/
theorem pop_wrong_side_noop_witness :
    (LayerStack.PopLayer ⟨[⟨0, none, false⟩, ⟨1, none, false⟩], 1⟩
        ⟨1, none, false⟩ = (⟨[⟨0, none, false⟩, ⟨1, none, false⟩], 1⟩, false, none)) ∧
    (LayerStack.PopOverlay ⟨[⟨0, none, false⟩, ⟨1, none, false⟩], 1⟩
        ⟨0, none, false⟩ = (⟨[⟨0, none, false⟩, ⟨1, none, false⟩], 1⟩, false, none)) ∧
    (LayerStack.PopLayer ⟨[⟨0, none, false⟩, ⟨1, none, false⟩], 1⟩
        ⟨7, none, false⟩ = (⟨[⟨0, none, false⟩, ⟨1, none, false⟩], 1⟩, false, none)) :=
  ⟨(pop_wrong_side_noop ⟨[⟨0, none, false⟩, ⟨1, none, false⟩], 1⟩
      ⟨1, none, false⟩).1 (Or.inr ⟨1, by decide, by decide⟩),
   (pop_wrong_side_noop ⟨[⟨0, none, false⟩, ⟨1, none, false⟩], 1⟩
      ⟨0, none, false⟩).2 (Or.inr ⟨0, by decide, by decide⟩),
   (pop_wrong_side_noop ⟨[⟨0, none, false⟩, ⟨1, none, false⟩], 1⟩
      ⟨7, none, false⟩).1 (Or.inl (by decide))⟩

/-- C1: for services registered with `Register` in order S1..Sn (distinct
identifiers), `Initialize` awaits the init hooks in exactly registration
order. When every hook resolves, all of S1..Sn are invoked in order,
end initialized, and the call completes without error; when the k-th
hook is the first to reject, exactly S1..Sk are invoked in order,
S1..S(k-1) end (and stay) initialized, Sk and S(k+1)..Sn are untouched
(never invoked, hence still uninitialized), and the call rejects with
the k-th service's error. Every registration sequence falls under one
of the two branches. -/
theorem container_initialize_order (regs : List (Nat × Service))
    (hnd : (regs.map Prod.fst).Nodup) :
    ((∀ p ∈ regs, p.2.initResult = none) →
      (registerAll regs).Initialize =
        (regs.map Prod.fst,
         ⟨regs.map (fun p => (p.1, { p.2 with Initialized := true }))⟩,
         none)) ∧
    (∀ pre idk sk post e, regs = pre ++ (idk, sk) :: post →
      (∀ p ∈ pre, p.2.initResult = none) → sk.initResult = some e →
      (registerAll regs).Initialize =
        (pre.map Prod.fst ++ [idk],
         ⟨pre.map (fun p => (p.1, { p.2 with Initialized := true }))
           ++ (idk, sk) :: post⟩,
         some e)) := by
  have hs := registerAll_services _ hnd
  constructor
  · intro h
    simp only [ServiceContainer.Initialize, hs, initList_all_ok regs h]
  · intro pre idk sk post e hsplit hpre hk
    rw [hsplit] at hs
    simp only [ServiceContainer.Initialize, hs, hsplit,
      initList_first_err pre post idk sk e hpre hk]

/-- Witness for C1: two all-resolving registered services initialize in
order with no error; with three registered services whose second
rejects with error 5, exactly the first two init hooks run. -/
theorem container_initialize_order_witness :
    ((registerAll [(0, mkService none none), (1, mkService none none)]).Initialize =
      ([0, 1], ⟨[(0, ⟨none, none, true⟩), (1, ⟨none, none, true⟩)]⟩, none)) ∧
    ((registerAll [(0, mkService none none), (1, mkService (some 5) none),
        (2, mkService none none)]).Initialize =
      ([0, 1],
       ⟨[(0, ⟨none, none, true⟩), (1, mkService (some 5) none),
         (2, mkService none none)]⟩,
       some 5)) := by
  constructor
  · have h := (container_initialize_order
      [(0, mkService none none), (1, mkService none none)] (by decide)).1
      (by decide)
    simpa [mkService] using h
  · have h := (container_initialize_order
      [(0, mkService none none), (1, mkService (some 5) none),
        (2, mkService none none)] (by decide)).2
      [(0, mkService none none)] 1 (mkService (some 5) none)
      [(2, mkService none none)] 5 rfl (by decide) rfl
    simpa [mkService] using h

/-- C2 counterexample: a stack of two layers where the first layer's
detach throws. The claim predicts that every remaining layer is
detached (trace `[0, 1]`) and that the sequence is emptied and the cut
reset; in fact the pass aborts after the first detach and leaves the
stack untouched. -/
theorem layerStack_shutdown_counterexample :
    ¬ ((LayerStack.Shutdown ⟨[⟨0, some 7, false⟩, ⟨1, none, false⟩], 2⟩).1
          = [0, 1] ∧
       (LayerStack.Shutdown ⟨[⟨0, some 7, false⟩, ⟨1, none, false⟩], 2⟩).2.1
          = ⟨[], 0⟩) := by
  decide

/-- C2 amended: when no detach throws, `Shutdown` detaches every layer
exactly once in sequence order, empties the sequence, resets the cut to
zero and reports `true`; when some layer's detach throws, the layers
before it are detached, the pass stops there (later layers are not
detached and the sequence and cut are left unchanged), and the reported
success flag is `false`. -/
theorem layerStack_shutdown_spec (st : LayerStack) :
    ((∀ l ∈ st.layers, l.detachThrows = none) →
      st.Shutdown = (st.layers.map (fun l => l.id), ⟨[], 0⟩, true)) ∧
    (∀ pre x post e, st.layers = pre ++ x :: post →
      (∀ l ∈ pre, l.detachThrows = none) → x.detachThrows = some e →
      st.Shutdown = (pre.map (fun l => l.id) ++ [x.id], st, false)) := by
  constructor
  · intro h
    simp [LayerStack.Shutdown, detachAll_all_ok st.layers h]
  · intro pre x post e hsplit hpre hx
    simp [LayerStack.Shutdown, hsplit, detachAll_first_err pre post x e hpre hx]

/-- Witness for C2: a clean two-layer stack shuts down fully; a stack
whose first layer throws aborts with the second layer untouched. -/
theorem layerStack_shutdown_spec_witness :
    (LayerStack.Shutdown ⟨[⟨0, none, false⟩, ⟨1, none, false⟩], 1⟩ =
      ([0, 1], ⟨[], 0⟩, true)) ∧
    (LayerStack.Shutdown ⟨[⟨0, some 7, false⟩, ⟨1, none, false⟩], 2⟩ =
      ([0], ⟨[⟨0, some 7, false⟩, ⟨1, none, false⟩], 2⟩, false)) :=
  ⟨(layerStack_shutdown_spec ⟨[⟨0, none, false⟩, ⟨1, none, false⟩], 1⟩).1
      (by decide),
   (layerStack_shutdown_spec ⟨[⟨0, some 7, false⟩, ⟨1, none, false⟩], 2⟩).2
      [] ⟨0, some 7, false⟩ [⟨1, none, false⟩] 7 rfl (by simp) rfl⟩

/-- C3 counterexample: one registered service whose shutdown hook rejects
with error 7. The claim predicts the failure is captured and the
process still exits via `process.exit`; in fact `Application.Shutdown`
rejects with that error and `process.exit` is never reached. -/
theorem application_shutdown_counterexample :
    Application.Shutdown ⟨[(0, ⟨none, some 7, true⟩)]⟩ LayerStack.empty =
      Except.error 7 ∧
    ¬ ∃ code, Application.Shutdown ⟨[(0, ⟨none, some 7, true⟩)]⟩
        LayerStack.empty = Except.ok code :=
  ⟨rfl, fun ⟨_, h⟩ => Except.noConfusion h⟩

/-- C3 amended: a failure thrown during the pipeline's shutdown pass is
captured and only downgrades the exit status — `Application.Shutdown`
reaches `process.exit` with status 0 when every detach succeeds and 1
when some detach throws; but a rejection from a service's shutdown hook
is not captured: it propagates out of the shutdown path and
`process.exit` is never reached. -/
theorem application_shutdown_spec (regs : List (Nat × Service))
    (st : LayerStack) :
    ((∀ p ∈ regs, p.2.shutdownResult = none) →
      (∀ l ∈ st.layers, l.detachThrows = none) →
      Application.Shutdown ⟨regs⟩ st = Except.ok 0) ∧
    ((∀ p ∈ regs, p.2.shutdownResult = none) →
      (∃ pre x post e', st.layers = pre ++ x :: post ∧
        (∀ l ∈ pre, l.detachThrows = none) ∧ x.detachThrows = some e') →
      Application.Shutdown ⟨regs⟩ st = Except.ok 1) ∧
    (∀ pre idk sk post e, regs = pre ++ (idk, sk) :: post →
      (∀ p ∈ pre, p.2.shutdownResult = none) → sk.shutdownResult = some e →
      Application.Shutdown ⟨regs⟩ st = Except.error e) := by
  refine ⟨?_, ?_, ?_⟩
  · intro hserv hdet
    simp [Application.Shutdown, ServiceContainer.Shutdown,
      shutdownList_all_ok regs hserv, Except.map, LayerStack.Shutdown,
      detachAll_all_ok st.layers hdet]
  · rintro hserv ⟨pre, x, post, e', hsplit, hpre, hx⟩
    simp [Application.Shutdown, ServiceContainer.Shutdown,
      shutdownList_all_ok regs hserv, Except.map, LayerStack.Shutdown,
      hsplit, detachAll_first_err pre post x e' hpre hx]
  · intro pre idk sk post e hsplit hpre hk
    simp [Application.Shutdown, ServiceContainer.Shutdown, hsplit,
      shutdownList_first_err pre post idk sk e hpre hk, Except.map]

/-- Witness for C3: a clean service plus a throwing layer exits with 1;
the same service with a clean layer exits with 0; a rejecting service
shutdown hook escapes. -/
theorem application_shutdown_spec_witness :
    (Application.Shutdown ⟨[(0, ⟨none, none, true⟩)]⟩
        ⟨[⟨0, none, false⟩], 1⟩ = Except.ok 0) ∧
    (Application.Shutdown ⟨[(0, ⟨none, none, true⟩)]⟩
        ⟨[⟨0, some 9, false⟩], 1⟩ = Except.ok 1) ∧
    (Application.Shutdown ⟨[(0, ⟨none, some 7, true⟩)]⟩
        ⟨[⟨0, none, false⟩], 1⟩ = Except.error 7) :=
  ⟨(application_shutdown_spec [(0, ⟨none, none, true⟩)]
      ⟨[⟨0, none, false⟩], 1⟩).1 (by simp) (by simp),
   (application_shutdown_spec [(0, ⟨none, none, true⟩)]
      ⟨[⟨0, some 9, false⟩], 1⟩).2.1 (by simp)
      ⟨[], ⟨0, some 9, false⟩, [], 9, rfl, by simp, rfl⟩,
   (application_shutdown_spec [(0, ⟨none, some 7, true⟩)]
      ⟨[⟨0, none, false⟩], 1⟩).2.2 [] 0 ⟨none, some 7, true⟩ [] 7 rfl
      (by simp) rfl⟩

/-- C4: with regular layers A then B and overlay C pushed, `OnUpdate`
visits [A, B, C]; `OnEvent` visits [C, B, A] when nothing consumes,
checks `Consumed` before each call so that when B consumes only C and B
are visited (A is not), and an already-consumed envelope visits no
layer at all. -/
theorem layerStack_dispatch_order (a b c : Layer) (ts ty : Nat) :
    (((((LayerStack.empty.PushLayer a).PushLayer b).PushOverlay c).OnUpdate ts)
        = [a.id, b.id, c.id]) ∧
    (a.consumesOnEvent = false → b.consumesOnEvent = false →
      c.consumesOnEvent = false →
      ((((LayerStack.empty.PushLayer a).PushLayer b).PushOverlay c).OnEvent
          ⟨ty, false⟩) = ([c.id, b.id, a.id], ⟨ty, false⟩)) ∧
    (b.consumesOnEvent = true → c.consumesOnEvent = false →
      ((((LayerStack.empty.PushLayer a).PushLayer b).PushOverlay c).OnEvent
          ⟨ty, false⟩) = ([c.id, b.id], ⟨ty, true⟩)) ∧
    (((((LayerStack.empty.PushLayer a).PushLayer b).PushOverlay c).OnEvent
        ⟨ty, true⟩) = ([], ⟨ty, true⟩)) := by
  have hlayers :
      (((LayerStack.empty.PushLayer a).PushLayer b).PushOverlay c).layers
        = [a, b, c] := by
    simp [LayerStack.empty, LayerStack.PushLayer, LayerStack.PushOverlay,
      spliceInsert]
  refine ⟨?_, ?_, ?_, ?_⟩
  · simp [LayerStack.OnUpdate, hlayers]
  · intro ha hb hc
    simp [LayerStack.OnEvent, hlayers, onEventLoop, Event.Consumed,
      Event.Consume, ha, hb, hc]
  · intro hb hc
    simp [LayerStack.OnEvent, hlayers, onEventLoop, Event.Consumed,
      Event.Consume, hb, hc]
  · simp [LayerStack.OnEvent, hlayers, onEventLoop, Event.Consumed]

/-- Witness for C4 at three concrete layers (B consumes). -/
theorem layerStack_dispatch_order_witness :
    (((((LayerStack.empty.PushLayer ⟨0, none, false⟩).PushLayer
        ⟨1, none, true⟩).PushOverlay ⟨2, none, false⟩).OnUpdate 16)
      = [0, 1, 2]) ∧
    (((((LayerStack.empty.PushLayer ⟨0, none, false⟩).PushLayer
        ⟨1, none, true⟩).PushOverlay ⟨2, none, false⟩).OnEvent ⟨3, false⟩)
      = ([2, 1], ⟨3, true⟩)) :=
  ⟨(layerStack_dispatch_order ⟨0, none, false⟩ ⟨1, none, true⟩
      ⟨2, none, false⟩ 16 3).1,
   (layerStack_dispatch_order ⟨0, none, false⟩ ⟨1, none, true⟩
      ⟨2, none, false⟩ 16 3).2.2.1 rfl rfl⟩

/-- C8: `Close()` only sets the running flag to `false` (timestamp,
container and stack are untouched); the next tick then observes the
flag, performs no update pass and triggers `Shutdown` instead of
scheduling a further tick, so no later tick ever runs an update pass. -/
theorem application_close_spec (a : App) (times : List Nat) (now : Nat) :
    a.Close.running = false ∧
    a.Close.lastTickTime = a.lastTickTime ∧
    a.Close.serviceContainer = a.serviceContainer ∧
    a.Close.layerStack = a.layerStack ∧
    a.Close.Tick now = TickOutcome.shutdownTriggered ∧
    runLoop a.Close times = [] := by
  refine ⟨rfl, rfl, rfl, rfl, rfl, ?_⟩
  cases times with
  | nil => rfl
  | cons t rest => simp [runLoop, App.Tick, App.Close]

end Nexus
